import Mathlib

/-!
Shallow embedding of the weather app (romulowerneck/weather):
the SearchBar component (debounced suggestion pipeline, suggestion
selection, geolocation resolution) and the page-level weather fetcher.
Each definition mirrors one function or expression of the TypeScript
source; JavaScript truthiness of optional strings and `Math.round`
are modelled explicitly.
-/

namespace Weather

/-- JavaScript `a || b` on an optional string `a` with an optional
string fallback: the empty string and `undefined` (`none`) are falsy. -/
def jsOr (a b : Option String) : Option String :=
  match a with
  | some s => if s = "" then b else some s
  | none => b

/-- JavaScript `a || b` on an optional string with a plain string
fallback (as in `suggestion.address.city || suggestion.address.town || ''`). -/
def jsOrStr (a : Option String) (b : String) : String :=
  match a with
  | some s => if s = "" then b else s
  | none => b

/-- JavaScript truthiness of an optional string: `undefined` and `""` are falsy. -/
def truthyS : Option String → Bool
  | some s => s ≠ ""
  | none => false

/-- JavaScript `a || 0` on an optional number (as in
`data.currentConditions.precipprob || 0`): `undefined`, `NaN` and `0`
are falsy and yield the fallback `0`. -/
def jsOrZero (a : Option ℚ) : ℚ :=
  match a with
  | some x => x
  | none => 0

/-- JavaScript `Math.round`: round half up, i.e. `⌊x + 1/2⌋`. -/
def jsRound (q : ℚ) : ℤ := ⌊q + 1/2⌋

/-! ## SearchBar data model (src/unnamed/part_000) -/

/-- The `address` field of a forward-geocoding `Suggestion`
(`interface Suggestion`, lines 11-20): all fields optional. -/
structure Address where
  city : Option String
  town : Option String
  state : Option String
  country : Option String
deriving DecidableEq, Repr

/-- One forward-geocoding result (`interface Suggestion`). -/
structure Suggestion where
  place_id : Nat
  display_name : String
  address : Address
deriving DecidableEq, Repr

/-- The address object of a reverse-geocode response used in
`getCurrentLocation` (lines 130-135): `city`, `town`, `village`,
`municipality`, `state`, all possibly absent in the untyped JSON. -/
structure ReverseAddress where
  city : Option String
  town : Option String
  village : Option String
  municipality : Option String
  state : Option String
deriving DecidableEq, Repr

/-! ## Suggestion pipeline -/

/-- `const city = suggestion.address.city || suggestion.address.town || ''`
(lines 83 and 198). -/
def cityOf (a : Address) : String :=
  jsOrStr (jsOr a.city a.town) ""

/-- `const state = suggestion.address.state || ''` (lines 84 and 199). -/
def stateOf (a : Address) : String :=
  jsOrStr a.state ""

/-- The guard in the suggestion list render (line 200):
`if (!city || !state) return null;` — a suggestion produces a clickable
button only when both the derived city and state are non-empty. -/
def renderedClickable (s : Suggestion) : Bool :=
  cityOf s.address ≠ "" && stateOf s.address ≠ ""

/-- The state changes and emission performed by `handleSuggestionClick`
(lines 82-90): the new input text, the suggestion-list visibility, and
the argument of the `onSearch` call (`onSearch` is wired to the page's
`fetchWeatherData`). -/
structure ClickResult where
  location : String
  showSuggestions : Bool
  emitted : Option String
deriving DecidableEq, Repr

/-- `handleSuggestionClick` (lines 82-90): derive city and state with the
JS `||` chains, build `` `${city}, ${state}, Brasil` ``, set the input
text to it, close the list and call `onSearch` with it. -/
def handleSuggestionClick (s : Suggestion) : ClickResult :=
  let city := cityOf s.address
  let state := stateOf s.address
  let locationString := city ++ ", " ++ state ++ ", Brasil"
  { location := locationString
    showSuggestions := false
    emitted := some locationString }

/-- Outcome of the suggestion fetch request, abstracting the network:
either the request fails (rejection, non-OK status or parse error —
all reach the `catch`) or it yields a parsed list of suggestions. -/
inductive SuggResp where
  | failure
  | ok (data : List Suggestion)
deriving DecidableEq, Repr

/-- `fetchSuggestions` (lines 43-66): if `query.length < 3`, clear the
suggestions and return without issuing a request; otherwise issue the
request and, on success, keep only items with a truthy `address.city`
or `address.town`; on any failure clear the suggestions. Returns
whether a network request was issued together with the resulting
suggestion list. -/
def fetchSuggestions (query : String) (resp : SuggResp) : Bool × List Suggestion :=
  if query.length < 3 then
    (false, [])
  else
    match resp with
    | .ok data =>
        (true, data.filter fun item =>
          truthyS item.address.city || truthyS item.address.town)
    | .failure => (true, [])

/-- Modelled from the spec: the "trimmed" length of a query
(JavaScript `query.trim().length` — the spec's §8 speaks of queries
"shorter than 3 trimmed characters"). The source itself never trims
the query; this definition exists only to compare the spec's wording
with the code's raw `query.length` check. -/
def specTrimmedLength (q : String) : Nat :=
  ((q.toList.dropWhile Char.isWhitespace).reverse.dropWhile Char.isWhitespace).length

/-! ## Debounce (handleInputChange, lines 68-80)

`handleInputChange` stores the raw text, cancels any pending
`searchTimeout` with `clearTimeout`, and schedules `fetchSuggestions`
300 ms later.  We model the timer as the optional pair of its fire
time and captured query, and a run as a time-ordered list of keystroke
events; a pending timer fires when its fire time arrives before the
next keystroke (and at the end of the run). -/

/-- The debounce interval of `handleInputChange` (line 79). -/
def debounceMs : Nat := 300

/-- One `handleInputChange` call at time `t` with input `value`:
`clearTimeout` on the pending timer (dropping the old state), then
`setTimeout(.., 300)` capturing `value`. -/
def handleInputChange (t : Nat) (value : String) : Option (Nat × String) :=
  some (t + debounceMs, value)

/-- Run a time-ordered list of keystroke events against the debounce
timer, returning the list of `fetchSuggestions` invocations as
(fire time, query) pairs: a pending timer fires iff its fire time is
reached before the next keystroke, and any timer still pending at the
end of the run fires. -/
def processEvents : Option (Nat × String) → List (Nat × String) → List (Nat × String)
  | pending, [] => pending.toList
  | pending, (t, v) :: rest =>
      let fired :=
        match pending with
        | some (ft, q) => if ft ≤ t then [(ft, q)] else []
        | none => []
      fired ++ processEvents (handleInputChange t v) rest

/-- A keystroke burst starting from a pending fire time `ft`: each
event arrives strictly before the currently pending timer fires. -/
def burstFrom : Nat → List (Nat × String) → Bool
  | _, [] => true
  | ft, (t, _) :: rest => decide (t < ft) && burstFrom (t + debounceMs) rest

/-- A list of keystrokes forms a single burst within the debounce
window: every keystroke after the first arrives strictly less than
300 ms after the previous one. -/
def burst : List (Nat × String) → Bool
  | [] => true
  | (t, _) :: rest => burstFrom (t + debounceMs) rest

/-! ## Geolocation pipeline (getCurrentLocation, lines 99-166) -/

/-- `data.address.city || data.address.town || data.address.village ||
data.address.municipality` (lines 130-133). -/
def reverseCity (a : ReverseAddress) : Option String :=
  jsOr (jsOr (jsOr a.city a.town) a.village) a.municipality

/-- The four user-facing messages of the `switch (error.code)` on a
`GeolocationPositionError` (lines 147-159); the platform codes are
`PERMISSION_DENIED = 1`, `POSITION_UNAVAILABLE = 2`, `TIMEOUT = 3`. -/
def platformMessage (code : Nat) : String :=
  if code = 1 then "Permissão de localização negada"
  else if code = 2 then "Informações de localização indisponíveis"
  else if code = 3 then "Tempo de requisição de localização expirou"
  else "Erro ao obter localização"

/-- How one activation of `getCurrentLocation` unfolds, abstracting the
platform and the network: geolocation capability absent; the position
promise rejecting with a `GeolocationPositionError` of a given code;
the reverse-geocode fetch failing (rejection, non-OK status or parse
error — every non-`GeolocationPositionError` throw before line 130);
or a parsed reverse-geocode response with its address object. -/
inductive GeoOutcome where
  | noSupport
  | posError (code : Nat)
  | fetchFailure
  | success (addr : ReverseAddress)
deriving DecidableEq, Repr

/-- The component state left by one run of `getCurrentLocation`:
the `geoError` message, the `isGeoLoading` flag, the new input text if
set, and the argument of the `onSearch` call if any. -/
structure GeoResult where
  geoError : Option String
  isGeoLoading : Bool
  location : Option String
  emitted : Option String
deriving DecidableEq, Repr

/-- `getCurrentLocation` (lines 99-166): clear the error and set the
busy flag; fail fast when geolocation is unsupported; on a position,
reverse-geocode and extract city (fallback chain) and state; if both
are truthy, build `` `${city}, ${state}, Brasil` ``, set the input text
and call `onSearch`; otherwise throw. The `catch` maps a
`GeolocationPositionError` through the four-way `switch` and every
other error (fetch failure, non-OK status, parse error, or the
missing-city/state throw of line 142) to
`'Erro ao determinar sua localização'`; the `finally` clears the busy
flag on every path. -/
def getCurrentLocation (o : GeoOutcome) : GeoResult :=
  match o with
  | .noSupport =>
      { geoError := some "Seu navegador não suporta geolocalização"
        isGeoLoading := false, location := none, emitted := none }
  | .posError code =>
      { geoError := some (platformMessage code)
        isGeoLoading := false, location := none, emitted := none }
  | .fetchFailure =>
      { geoError := some "Erro ao determinar sua localização"
        isGeoLoading := false, location := none, emitted := none }
  | .success addr =>
      let city := reverseCity addr
      let state := addr.state
      if truthyS city && truthyS state then
        let locationString :=
          city.getD "" ++ ", " ++ state.getD "" ++ ", Brasil"
        { geoError := none, isGeoLoading := false
          location := some locationString, emitted := some locationString }
      else
        { geoError := some "Erro ao determinar sua localização"
          isGeoLoading := false, location := none, emitted := none }

/-! ## Page-level weather orchestration (src/src/app/page.tsx) -/

/-- One entry of `data.days[0].hours` as destructured by the map on
lines 50-54 of page.tsx. -/
structure RawHour where
  datetime : String
  temp : ℚ
  conditions : String
deriving DecidableEq, Repr

/-- The `data.currentConditions` fields that `fetchWeatherData` reads
(lines 45-49): `temp`, `windspeed` and `conditions` are accessed
directly, `precipprob` and `humidity` behind a `|| 0` default, so the
latter two are modelled as possibly absent. -/
structure RawCurrentConditions where
  temp : ℚ
  windspeed : ℚ
  precipprob : Option ℚ
  humidity : Option ℚ
  conditions : String
deriving DecidableEq, Repr

/-- One entry of `data.days` (only `days[0].hours` is read). -/
structure RawDay where
  hours : List RawHour
deriving DecidableEq, Repr

/-- The parsed weather response as read by `fetchWeatherData`. -/
structure RawResponse where
  resolvedAddress : String
  currentConditions : RawCurrentConditions
  days : List RawDay
deriving DecidableEq, Repr

/-- `interface HourlyForecast` (page.tsx lines 8-12). -/
structure HourlyForecast where
  datetime : String
  temp : ℤ
  conditions : String
deriving DecidableEq, Repr

/-- `interface WeatherData` (page.tsx lines 14-22). -/
structure WeatherData where
  location : String
  temperature : ℤ
  windSpeed : ℤ
  precipitation : ℤ
  humidity : ℤ
  conditions : String
  hourlyForecast : List HourlyForecast
deriving DecidableEq, Repr

/-- The page component state: `weather`, `loading`, `error`
(page.tsx lines 25-27). -/
structure PageState where
  weather : Option WeatherData
  loading : Bool
  error : Option String
deriving DecidableEq, Repr

/-- Outcome of the weather fetch, abstracting the network: the fetch
rejecting or `response.json()` throwing; `response.ok` false (which
makes line 38 throw); or a parsed response object. -/
inductive WeatherResp where
  | netErr
  | notOk
  | ok (data : RawResponse)
deriving DecidableEq, Repr

/-- The snapshot built from a parsed response on lines 43-55 of
page.tsx, defined when `data.days` is non-empty (an empty `days` makes
`data.days[0].hours` throw at runtime, reaching the `catch`):
every numeric field goes through `Math.round`, `precipprob` and
`humidity` behind `|| 0`, and `days[0].hours` is mapped in order with
no truncation. -/
def buildSnapshot (data : RawResponse) (d0 : RawDay) : WeatherData :=
  { location := data.resolvedAddress
    temperature := jsRound data.currentConditions.temp
    windSpeed := jsRound data.currentConditions.windspeed
    precipitation := jsRound (jsOrZero data.currentConditions.precipprob)
    humidity := jsRound (jsOrZero data.currentConditions.humidity)
    conditions := data.currentConditions.conditions
    hourlyForecast := d0.hours.map fun hour =>
      { datetime := hour.datetime
        temp := jsRound hour.temp
        conditions := hour.conditions } }

/-- `fetchWeatherData` (page.tsx lines 29-62) as a transition on the
page state: set `loading` and clear `error`; issue the request for
exactly the given location string (it is interpolated into the URL on
line 34 — the first component of the result records it); on success
replace the whole snapshot; on any failure (rejection, non-OK status,
parse error, or a response whose `days` is empty) set the generic
error message and leave the stored snapshot untouched; the `finally`
clears `loading` on every path. This is the `onSearch` handler wired
to the SearchBar (page.tsx line 99). -/
def fetchWeatherData (st : PageState) (location : String) (resp : WeatherResp) :
    String × PageState :=
  (location,
    match resp with
    | .netErr =>
        { weather := st.weather, loading := false
          error := some "Erro ao buscar dados meteorológicos" }
    | .notOk =>
        { weather := st.weather, loading := false
          error := some "Erro ao buscar dados meteorológicos" }
    | .ok data =>
        match data.days.head? with
        | none =>
            { weather := st.weather, loading := false
              error := some "Erro ao buscar dados meteorológicos" }
        | some d0 =>
            { weather := some (buildSnapshot data d0)
              loading := false, error := none })

/-- A sample forecast hour entry used in concrete evaluations. -/
def sampleHour : RawHour := ⟨"00:00:00", 20, "Céu claro"⟩

/-- A parsed weather response whose first day carries 25 hour entries. -/
def sampleResponse25 : RawResponse :=
  ⟨"Curitiba, Paraná, Brasil", ⟨20, 10, some 0, some 80, "Céu claro"⟩,
    [⟨List.replicate 25 sampleHour⟩]⟩

/-- A parsed weather response whose `currentConditions` carries neither
a `precipprob` nor a `humidity` field. -/
def sampleResponseNoPrecip : RawResponse :=
  ⟨"Curitiba, Paraná, Brasil", ⟨21, 12, none, none, "Céu claro"⟩, [⟨[]⟩]⟩

/-! ## Theorems -/

/-- JavaScript `a || b` keeps a truthy left operand. -/
theorem jsOr_truthy (a b : Option String) (h : truthyS a = true) :
    jsOr a b = a := by
  cases a with
  | none => simp [truthyS] at h
  | some s =>
    simp only [truthyS, decide_eq_true_eq] at h
    simp [jsOr, h]

/-- JavaScript `a || b` falls through a falsy left operand. -/
theorem jsOr_falsy (a b : Option String) (h : truthyS a = false) :
    jsOr a b = b := by
  cases a with
  | none => rfl
  | some s =>
    simp only [truthyS, decide_eq_false_iff_not, not_not] at h
    simp [jsOr, h]

/-- Unfolding lemma: the success branch of `getCurrentLocation`. -/
theorem getCurrentLocation_success (addr : ReverseAddress) :
    getCurrentLocation (.success addr) =
      if truthyS (reverseCity addr) && truthyS addr.state then
        { geoError := none, isGeoLoading := false
          location := some ((reverseCity addr).getD "" ++ ", " ++
            addr.state.getD "" ++ ", Brasil")
          emitted := some ((reverseCity addr).getD "" ++ ", " ++
            addr.state.getD "" ++ ", Brasil") }
      else
        { geoError := some "Erro ao determinar sua localização"
          isGeoLoading := false, location := none, emitted := none } := rfl

/-- Unfolding lemma: `fetchWeatherData` on a parsed response. -/
theorem fetchWeatherData_ok (st : PageState) (location : String)
    (data : RawResponse) :
    fetchWeatherData st location (.ok data) =
      (location,
        match data.days.head? with
        | none =>
            { weather := st.weather, loading := false
              error := some "Erro ao buscar dados meteorológicos" }
        | some d0 =>
            { weather := some (buildSnapshot data d0)
              loading := false, error := none }) := rfl

/-- The busy flag of `getCurrentLocation` is false on every exit path
(the early return of the no-support branch and the `finally`). -/
theorem getCurrentLocation_isGeoLoading (o : GeoOutcome) :
    (getCurrentLocation o).isGeoLoading = false := by
  cases o with
  | noSupport => rfl
  | posError code => rfl
  | fetchFailure => rfl
  | success addr =>
    rw [getCurrentLocation_success]
    split <;> rfl

/-- Helper for the debounce argument: while every keystroke arrives
strictly before the pending timer would fire, no timer fires until the
run ends, and then the last keystroke's timer fires. -/
theorem processEvents_of_burstFrom (events : List (Nat × String)) :
    ∀ pt pv tl vl, burstFrom pt events = true →
      events.getLast? = some (tl, vl) →
      processEvents (some (pt, pv)) events = [(tl + debounceMs, vl)] := by
  induction events with
  | nil => intro pt pv tl vl _ hlast; simp at hlast
  | cons e rest ih =>
    intro pt pv tl vl hburst hlast
    obtain ⟨t, v⟩ := e
    rw [burstFrom] at hburst
    rw [Bool.and_eq_true, decide_eq_true_eq] at hburst
    obtain ⟨hlt, hrest⟩ := hburst
    rw [processEvents]
    have hfired : (if pt ≤ t then [(pt, pv)] else []) = [] := by
      rw [if_neg (by omega)]
    simp only [hfired, List.nil_append]
    cases rest with
    | nil =>
      simp only [List.getLast?_singleton, Option.some_inj] at hlast
      cases hlast
      rfl
    | cons e2 rest2 =>
      rw [List.getLast?_cons_cons] at hlast
      exact ih (t + debounceMs) v tl vl hrest hlast

/-- C1: for a burst of keystrokes in which every keystroke arrives
strictly less than 300 ms after the previous one (so each
`handleInputChange` call reaches `clearTimeout` before the pending
timer fires, cancelling it and scheduling a fresh one), exactly one
`fetchSuggestions` invocation results, and it fires 300 ms after the
last keystroke, carrying the last keystroke's text. -/
theorem debounced_burst_single_lookup (events : List (Nat × String))
    (tl : Nat) (vl : String) (hburst : burst events = true)
    (hlast : events.getLast? = some (tl, vl)) :
    processEvents none events = [(tl + debounceMs, vl)] := by
  cases events with
  | nil => simp at hlast
  | cons e rest =>
    obtain ⟨t, v⟩ := e
    rw [burst] at hburst
    rw [processEvents]
    simp only [List.nil_append]
    cases rest with
    | nil =>
      simp only [List.getLast?_singleton, Option.some_inj] at hlast
      cases hlast
      rfl
    | cons e2 rest2 =>
      rw [List.getLast?_cons_cons] at hlast
      exact processEvents_of_burstFrom _ (t + debounceMs) v tl vl hburst hlast

/-- Witness for C1: the burst of keystrokes "c" at 0 ms, "cu" at
100 ms, "cur" at 350 ms (each gap below 300 ms) produces exactly one
lookup, for "cur", at 650 ms. -/
theorem debounced_burst_single_lookup_example :
    processEvents none [(0, "c"), (100, "cu"), (350, "cur")] =
      [(650, "cur")] :=
  debounced_burst_single_lookup [(0, "c"), (100, "cu"), (350, "cur")]
    350 "cur" (by decide) (by decide)

/-- C3 fails as stated: `fetchSuggestions` compares the RAW length of
the query with 3 (line 44: `if (query.length < 3)`), not the trimmed
length. The query "c  " (one letter and two spaces) has trimmed
length 1 but raw length 3, so a network request IS issued. -/
theorem short_trimmed_query_still_requests :
    specTrimmedLength "c  " < 3 ∧
      (fetchSuggestions "c  " (.ok [])).1 = true := by
  constructor
  · decide
  · rfl

/-- C3 amended: for every query whose RAW length is below 3
characters, `fetchSuggestions` issues no network request and sets the
suggestion list to empty. -/
theorem short_query_no_request (q : String) (resp : SuggResp)
    (h : q.length < 3) : fetchSuggestions q resp = (false, []) := by
  unfold fetchSuggestions
  rw [if_pos h]

/-- Witness for the amended C3 at the two-character query "cu". -/
theorem short_query_no_request_example :
    fetchSuggestions "cu" (.ok []) = (false, []) :=
  short_query_no_request "cu" (.ok []) (by decide)

/-- C8: clicking the suggestion whose address has city "Curitiba" and
state "Paraná" produces exactly "Curitiba, Paraná, Brasil", stores it
as the input text, closes the suggestion list, and calls `onSearch`
(the page's `fetchWeatherData`) with that exact string — so the
weather request is issued for exactly that string. -/
theorem curitiba_suggestion_click :
    handleSuggestionClick
        ⟨298570, "Curitiba, Paraná, Brasil",
          ⟨some "Curitiba", none, some "Paraná", some "Brasil"⟩⟩ =
      { location := "Curitiba, Paraná, Brasil"
        showSuggestions := false
        emitted := some "Curitiba, Paraná, Brasil" } ∧
    ∀ (st : PageState) (resp : WeatherResp),
      (fetchWeatherData st "Curitiba, Paraná, Brasil" resp).1 =
        "Curitiba, Paraná, Brasil" := by
  exact ⟨rfl, fun _ _ => rfl⟩

/-- C9: when the weather fetch fails — the fetch rejects or parsing
throws (`netErr`), or the HTTP status is non-OK (`notOk`, which makes
line 38 throw) — the generic localized error message is set, the
loading flag is cleared by the `finally`, and the previously stored
weather snapshot is left exactly as it was. -/
theorem weather_fetch_failure_keeps_snapshot :
    ∀ (st : PageState) (location : String),
      (fetchWeatherData st location .netErr).2 =
        { weather := st.weather, loading := false
          error := some "Erro ao buscar dados meteorológicos" } ∧
      (fetchWeatherData st location .notOk).2 =
        { weather := st.weather, loading := false
          error := some "Erro ao buscar dados meteorológicos" } :=
  fun _ _ => ⟨rfl, rfl⟩

/-- C2: a suggestion only yields a clickable button when the derived
city and state are both non-empty (the render guard of line 200), and
clicking it emits the canonical location string; in the geolocation
flow the location string is emitted exactly when both the fallback
city and the state are truthy, and when it is not emitted the flow
ends in the resolution-failure error message. -/
theorem emission_requires_city_and_state :
    (∀ s : Suggestion, renderedClickable s = true →
      (handleSuggestionClick s).emitted =
        some (cityOf s.address ++ ", " ++ stateOf s.address ++ ", Brasil") ∧
      cityOf s.address ≠ "" ∧ stateOf s.address ≠ "") ∧
    (∀ addr : ReverseAddress,
      (getCurrentLocation (.success addr)).emitted ≠ none ↔
        (truthyS (reverseCity addr) = true ∧ truthyS addr.state = true)) ∧
    (∀ addr : ReverseAddress,
      (getCurrentLocation (.success addr)).emitted = none →
        (getCurrentLocation (.success addr)).geoError =
          some "Erro ao determinar sua localização") := by
  refine ⟨?_, ?_, ?_⟩
  · intro s h
    rw [renderedClickable, Bool.and_eq_true, decide_eq_true_eq,
      decide_eq_true_eq] at h
    exact ⟨rfl, h.1, h.2⟩
  · intro addr
    rw [getCurrentLocation_success]
    cases hb : (truthyS (reverseCity addr) && truthyS addr.state) with
    | true =>
      have hab := (Bool.and_eq_true _ _) ▸ hb
      simp [hab.1, hab.2]
    | false =>
      simp only [if_neg (by simp : ¬(false = true)), ne_eq,
        not_true_eq_false, false_iff, not_and]
      intro h1 h2
      rw [h1, h2] at hb
      simp at hb
  · intro addr h
    rw [getCurrentLocation_success] at h ⊢
    cases hb : (truthyS (reverseCity addr) && truthyS addr.state) with
    | true =>
      rw [hb] at h
      simp at h
    | false => simp

/-- Witness for C2 at the Curitiba suggestion, which is rendered
clickable since both derived fields are non-empty. -/
theorem emission_requires_city_and_state_example :
    (handleSuggestionClick
        ⟨298570, "Curitiba, Paraná, Brasil",
          ⟨some "Curitiba", none, some "Paraná", some "Brasil"⟩⟩).emitted =
      some (cityOf ⟨some "Curitiba", none, some "Paraná", some "Brasil"⟩ ++
        ", " ++ stateOf ⟨some "Curitiba", none, some "Paraná", some "Brasil"⟩ ++
        ", Brasil") ∧
    cityOf ⟨some "Curitiba", none, some "Paraná", some "Brasil"⟩ ≠ "" ∧
    stateOf ⟨some "Curitiba", none, some "Paraná", some "Brasil"⟩ ≠ "" :=
  emission_requires_city_and_state.1
    ⟨298570, "Curitiba, Paraná, Brasil",
      ⟨some "Curitiba", none, some "Paraná", some "Brasil"⟩⟩ (by decide)

/-- C4 fails as stated: when reverse geocoding succeeds but no
city-like field and no state are present, the `throw` of line 142
('Não foi possível determinar sua localização') is caught by the
`catch`, which discards its message and shows
'Erro ao determinar sua localização' — the SAME message as a
network/parse failure during reverse geocoding, not a distinct one. -/
theorem missing_fields_message_not_distinct :
    (getCurrentLocation (.success ⟨none, none, none, none, none⟩)).geoError =
      (getCurrentLocation .fetchFailure).geoError ∧
    (getCurrentLocation (.success ⟨none, none, none, none, none⟩)).geoError =
      some "Erro ao determinar sua localização" ∧
    (getCurrentLocation (.success ⟨none, none, none, none, none⟩)).geoError ≠
      some "Não foi possível determinar sua localização" :=
  ⟨rfl, rfl, by decide⟩

/-- C4 amended: when reverse geocoding succeeds but the state or all
city-like fields are missing, the flow ends with the generic
'Erro ao determinar sua localização' message, which is distinct from
every platform-error message but identical to the message used for
network/parse failures during reverse geocoding. -/
theorem missing_fields_generic_message (addr : ReverseAddress)
    (h : ¬(truthyS (reverseCity addr) = true ∧ truthyS addr.state = true)) :
    (getCurrentLocation (.success addr)).geoError =
      some "Erro ao determinar sua localização" ∧
    (∀ code : Nat, platformMessage code ≠ "Erro ao determinar sua localização") ∧
    (getCurrentLocation .fetchFailure).geoError =
      some "Erro ao determinar sua localização" := by
  refine ⟨?_, ?_, rfl⟩
  · rw [getCurrentLocation_success,
      if_neg (by simpa [Bool.and_eq_true] using h)]
  · intro code
    unfold platformMessage
    split_ifs <;> decide

/-- Witness for the amended C4: a response with a city but no state
ends in the generic resolution-failure message. -/
theorem missing_fields_generic_message_example :
    (getCurrentLocation
        (.success ⟨some "Curitiba", none, none, none, none⟩)).geoError =
      some "Erro ao determinar sua localização" :=
  (missing_fields_generic_message
    ⟨some "Curitiba", none, none, none, none⟩ (by decide)).1

/-- C5 fails on the 24-entry cap: `fetchWeatherData` maps
`data.days[0].hours` wholesale (lines 50-54), applying no truncation,
so a response whose first day carries 25 hour entries yields a
snapshot with 25 forecast entries. -/
theorem hourly_forecast_not_capped :
    ((fetchWeatherData ⟨none, false, none⟩ "Curitiba, Paraná, Brasil"
          (.ok sampleResponse25)).2.weather.map
        fun w => w.hourlyForecast.length) = some 25 ∧
    ¬(25 ≤ 24) :=
  ⟨rfl, by decide⟩

/-- C5 amended: on a successful weather fetch the snapshot's
temperature, wind-speed, precipitation and humidity are the
`Math.round` of the corresponding raw fields (the last two behind
`|| 0`), and the hourly forecast is the order-preserving image of the
response's first-day hour list — one entry per source entry, with no
24-entry cap applied (the bound comes from the request URL's
`hours=24` parameter, not from the response processing). -/
theorem weather_snapshot_fields (st : PageState) (location : String)
    (data : RawResponse) (d0 : RawDay)
    (hd : data.days.head? = some d0) :
    (fetchWeatherData st location (.ok data)).2.weather =
      some (buildSnapshot data d0) ∧
    (buildSnapshot data d0).temperature =
      jsRound data.currentConditions.temp ∧
    (buildSnapshot data d0).windSpeed =
      jsRound data.currentConditions.windspeed ∧
    (buildSnapshot data d0).precipitation =
      jsRound (jsOrZero data.currentConditions.precipprob) ∧
    (buildSnapshot data d0).humidity =
      jsRound (jsOrZero data.currentConditions.humidity) ∧
    (buildSnapshot data d0).hourlyForecast =
      d0.hours.map (fun hr =>
        { datetime := hr.datetime, temp := jsRound hr.temp
          conditions := hr.conditions }) ∧
    (buildSnapshot data d0).hourlyForecast.length = d0.hours.length := by
  refine ⟨?_, rfl, rfl, rfl, rfl, rfl, ?_⟩
  · rw [fetchWeatherData_ok, hd]
  · simp [buildSnapshot]

/-- Witness for the amended C5 at the 25-hour sample response. -/
theorem weather_snapshot_fields_example :
    (fetchWeatherData ⟨none, false, none⟩ "Curitiba, Paraná, Brasil"
        (.ok sampleResponse25)).2.weather =
      some (buildSnapshot sampleResponse25 ⟨List.replicate 25 sampleHour⟩) ∧
    (buildSnapshot sampleResponse25
        ⟨List.replicate 25 sampleHour⟩).hourlyForecast.length = 25 :=
  ⟨(weather_snapshot_fields ⟨none, false, none⟩ "Curitiba, Paraná, Brasil"
      sampleResponse25 ⟨List.replicate 25 sampleHour⟩ rfl).1,
    (weather_snapshot_fields ⟨none, false, none⟩ "Curitiba, Paraná, Brasil"
      sampleResponse25 ⟨List.replicate 25 sampleHour⟩ rfl).2.2.2.2.2.2⟩

/-- C6: a platform-level geolocation failure sets the message chosen
by the `switch` on the error code among exactly four messages —
code 1 (PERMISSION_DENIED) the denied-permission message, code 2
(POSITION_UNAVAILABLE) the unavailable message, code 3 (TIMEOUT) the
timeout message, any other code the generic fallback — and the busy
flag is false after every exit path of the flow. -/
theorem geolocation_platform_failures :
    (∀ code : Nat, (getCurrentLocation (.posError code)).geoError =
      some (platformMessage code)) ∧
    platformMessage 1 = "Permissão de localização negada" ∧
    platformMessage 2 = "Informações de localização indisponíveis" ∧
    platformMessage 3 = "Tempo de requisição de localização expirou" ∧
    (∀ code : Nat, code ≠ 1 → code ≠ 2 → code ≠ 3 →
      platformMessage code = "Erro ao obter localização") ∧
    (∀ code : Nat,
      platformMessage code = "Permissão de localização negada" ∨
      platformMessage code = "Informações de localização indisponíveis" ∨
      platformMessage code = "Tempo de requisição de localização expirou" ∨
      platformMessage code = "Erro ao obter localização") ∧
    (∀ o : GeoOutcome, (getCurrentLocation o).isGeoLoading = false) := by
  refine ⟨fun _ => rfl, rfl, rfl, rfl, ?_, ?_, getCurrentLocation_isGeoLoading⟩
  · intro code h1 h2 h3
    unfold platformMessage
    rw [if_neg h1, if_neg h2, if_neg h3]
  · intro code
    unfold platformMessage
    split_ifs <;> simp

/-- Witness for C6: an unlisted platform code (99) falls to the
generic fallback message. -/
theorem geolocation_platform_failures_example :
    platformMessage 99 = "Erro ao obter localização" :=
  geolocation_platform_failures.2.2.2.2.1 99 (by decide) (by decide)
    (by decide)

/-- C7: the reverse-geocode city is extracted by the JS `||` chain
city → town → village → municipality, first truthy (non-empty) value
winning, the state is taken directly, and a response carrying a town
but no city, together with a state, emits the location string built
from the town value. -/
theorem reverse_city_fallback_order :
    (∀ a : ReverseAddress, truthyS a.city = true →
      reverseCity a = a.city) ∧
    (∀ a : ReverseAddress, truthyS a.city = false →
      truthyS a.town = true → reverseCity a = a.town) ∧
    (∀ a : ReverseAddress, truthyS a.city = false →
      truthyS a.town = false → truthyS a.village = true →
      reverseCity a = a.village) ∧
    (∀ a : ReverseAddress, truthyS a.city = false →
      truthyS a.town = false → truthyS a.village = false →
      reverseCity a = a.municipality) ∧
    (∀ t s : String, t ≠ "" → s ≠ "" →
      (getCurrentLocation
          (.success ⟨none, some t, none, none, some s⟩)).emitted =
        some (t ++ ", " ++ s ++ ", Brasil")) := by
  refine ⟨?_, ?_, ?_, ?_, ?_⟩
  · intro a h
    rw [reverseCity, jsOr_truthy a.city a.town h,
      jsOr_truthy a.city a.village h, jsOr_truthy a.city a.municipality h]
  · intro a hc ht
    rw [reverseCity, jsOr_falsy a.city a.town hc,
      jsOr_truthy a.town a.village ht, jsOr_truthy a.town a.municipality ht]
  · intro a hc ht hv
    rw [reverseCity, jsOr_falsy a.city a.town hc,
      jsOr_falsy a.town a.village ht, jsOr_truthy a.village a.municipality hv]
  · intro a hc ht hv
    rw [reverseCity, jsOr_falsy a.city a.town hc,
      jsOr_falsy a.town a.village ht, jsOr_falsy a.village a.municipality hv]
  · intro t s ht hs
    simp [getCurrentLocation, reverseCity, jsOr, truthyS, ht, hs]

/-- Witness for C7: a reverse-geocode response with town "Niterói",
no city, and state "Rio de Janeiro" resolves through the town. -/
theorem reverse_city_fallback_order_example :
    (getCurrentLocation
        (.success ⟨none, some "Niterói", none, none,
          some "Rio de Janeiro"⟩)).emitted =
      some "Niterói, Rio de Janeiro, Brasil" :=
  reverse_city_fallback_order.2.2.2.2 "Niterói" "Rio de Janeiro"
    (by decide) (by decide)

/-- C10: when the raw response omits `precipprob` or `humidity`, the
`|| 0` defaults of lines 47-48 make the snapshot store 0 for that
field, while `temp` and `windspeed` are rounded directly with no
default. -/
theorem missing_precip_humidity_default_zero (st : PageState)
    (location : String) (data : RawResponse) (d0 : RawDay)
    (hd : data.days.head? = some d0) :
    (data.currentConditions.precipprob = none →
      (buildSnapshot data d0).precipitation = 0) ∧
    (data.currentConditions.humidity = none →
      (buildSnapshot data d0).humidity = 0) ∧
    (buildSnapshot data d0).temperature =
      jsRound data.currentConditions.temp ∧
    (buildSnapshot data d0).windSpeed =
      jsRound data.currentConditions.windspeed ∧
    (fetchWeatherData st location (.ok data)).2.weather =
      some (buildSnapshot data d0) := by
  refine ⟨?_, ?_, rfl, rfl, ?_⟩
  · intro hp
    simp only [buildSnapshot, hp, jsOrZero, jsRound]
    norm_num
  · intro hh
    simp only [buildSnapshot, hh, jsOrZero, jsRound]
    norm_num
  · rw [fetchWeatherData_ok, hd]

/-- Witness for C10 at a response carrying neither `precipprob` nor
`humidity`: both snapshot fields are 0. -/
theorem missing_precip_humidity_default_zero_example :
    (buildSnapshot sampleResponseNoPrecip ⟨[]⟩).precipitation = 0 ∧
    (buildSnapshot sampleResponseNoPrecip ⟨[]⟩).humidity = 0 :=
  ⟨(missing_precip_humidity_default_zero ⟨none, false, none⟩
      "Curitiba, Paraná, Brasil" sampleResponseNoPrecip ⟨[]⟩ rfl).1 rfl,
    (missing_precip_humidity_default_zero ⟨none, false, none⟩
      "Curitiba, Paraná, Brasil" sampleResponseNoPrecip ⟨[]⟩ rfl).2.1 rfl⟩

end Weather
